import Mathlib

/-!
Verification of the input-dispatcher entry model
(`services/inputflinger/dispatcher/Entry.h`).

The header declares the `EventEntry` variant hierarchy, the per-delivery
`DispatchEntry` record with its sequence allocator, and the verified-event
builders.  Inline member functions (`isInjected`, `isSynthesized`,
`hasForegroundTarget`, `isSplit`) are embedded directly from the header;
out-of-line bodies (constructors, `nextSeq`, the verified-event builders,
the injection/dispatch lifecycle) are not part of the header and are
modelled from the specification, each such definition marked
`Modelled from the spec:`.
-/

namespace InputDispatcher

/-- 2^32, the modulus of the `uint32_t` sequence counter. -/
def UINT32_MOD : Nat := 2 ^ 32

/-! ## Sequence allocator (`DispatchEntry::nextSeq`, spec §4.5) -/

/-- Modelled from the spec: the body of `DispatchEntry::nextSeq` is not in
the header (only `static uint32_t nextSeq();` and the counter
`sNextSeqAtomic` are declared).  Per the spec it is "a process-wide
monotonically increasing counter, advanced atomically on every
DispatchEntry creation, skipping the value 0".  Given the current counter
value it returns the issued sequence number and the new counter value;
the increment wraps at 2^32 and a wrap to 0 is skipped. -/
def nextSeq (c : Nat) : Nat × Nat :=
  let c1 := (c + 1) % UINT32_MOD
  if c1 = 0 then (1, 1) else (c1, c1)

/-- The list of sequence numbers issued by `n` successive allocations
starting from counter value `c` (one allocation per `DispatchEntry`
created during the run). -/
def runSeqs : Nat → Nat → List Nat
  | _, 0 => []
  | c, Nat.succ n =>
    let p := nextSeq c
    p.1 :: runSeqs p.2 n

theorem nextSeq_of_lt {c : Nat} (h : c + 1 < UINT32_MOD) :
    nextSeq c = (c + 1, c + 1) := by
  have h1 : (c + 1) % UINT32_MOD = c + 1 := Nat.mod_eq_of_lt h
  simp [nextSeq, h1]

theorem runSeqs_eq_range' {c n : Nat} (h : c + n < UINT32_MOD) :
    runSeqs c n = List.range' (c + 1) n := by
  induction n generalizing c with
  | zero => simp [runSeqs]
  | succ n ih =>
    have hc1 : c + 1 < UINT32_MOD := by omega
    have hrec : (c + 1) + n < UINT32_MOD := by omega
    rw [runSeqs, nextSeq_of_lt hc1, ih hrec, List.range'_succ]

/-! ## Event id source tags -/

/-- The origin tag carried inside an event id (`IdGenerator::Source`). -/
inductive Source where
  | INPUT_READER
  | INPUT_DISPATCHER
  | OTHER
deriving DecidableEq

/-- Modelled from the spec: `IdGenerator::getSource` lives in `input/Input.h`,
outside the header under verification.  Per the spec an event `id` is
"globally unique, source-tagged"; the tag occupies the top two bits of the
32-bit id, with tag 0 denoting the physical hardware reader. -/
def getSource (id : Nat) : Source :=
  match id / 2 ^ 30 % 4 with
  | 0 => Source.INPUT_READER
  | 1 => Source.INPUT_DISPATCHER
  | _ => Source.OTHER

/-! ## InjectionState (spec §3) -/

/-- Aggregate injection outcomes (spec §4.4). -/
inductive InjectionResult where
  | PENDING
  | SUCCEEDED
  | FAILED
  | PERMISSION_DENIED
  | TIMED_OUT
deriving DecidableEq

/-- Modelled from the spec: `InjectionState.h` is not part of the header
under verification.  Per the spec it holds "injector identity/permission,
pending-delivery count, aggregate result". -/
structure InjectionState where
  injectorPid : Int
  injectorUid : Int
  pendingDispatches : Nat
  injectionResult : InjectionResult
deriving DecidableEq

/-! ## EventEntry variants -/

/-- `KeyEntry::InterceptKeyResult`. -/
inductive InterceptKeyResult where
  | UNKNOWN
  | SKIP
  | CONTINUE
  | TRY_AGAIN_LATER
deriving DecidableEq

/-- `MotionClassification` from `input/Input.h`; the exact constant set is
immaterial here. -/
inductive MotionClassification where
  | NONE
  | AMBIGUOUS_GESTURE
  | DEEP_PRESS
deriving DecidableEq

structure PointerProperties where
  pointerId : Int
  toolType : Int
deriving DecidableEq

/-- Pointer coordinates; scalar axis values are modelled as integers. -/
structure PointerCoords where
  x : Int
  y : Int
deriving DecidableEq

/-- Payload of `KeyEntry` beyond the `EventEntry` base fields. -/
structure KeyFields where
  deviceId : Int
  source : Nat
  displayId : Int
  action : Int
  flags : Int
  keyCode : Int
  scanCode : Int
  metaState : Int
  repeatCount : Int
  downTime : Int
  syntheticRepeat : Bool
  interceptKeyResult : InterceptKeyResult
  interceptKeyWakeupTime : Int
deriving DecidableEq

/-- Payload of `MotionEntry` beyond the `EventEntry` base fields.  The two
fixed-capacity arrays `pointerProperties[MAX_POINTERS]` /
`pointerCoords[MAX_POINTERS]` together with `pointerCount` are modelled as
lists whose length is the pointer count. -/
structure MotionFields where
  deviceId : Int
  source : Nat
  displayId : Int
  action : Int
  actionButton : Int
  flags : Int
  metaState : Int
  buttonState : Int
  classification : MotionClassification
  edgeFlags : Int
  xPrecision : Int
  yPrecision : Int
  xCursorPosition : Int
  yCursorPosition : Int
  downTime : Int
  pointerProperties : List PointerProperties
  pointerCoords : List PointerCoords
deriving DecidableEq

/-- Payload of `SensorEntry` beyond the `EventEntry` base fields; sensor
type and accuracy enums are modelled as numerals, sample values as
integers. -/
structure SensorFields where
  deviceId : Int
  source : Nat
  sensorType : Nat
  accuracy : Nat
  accuracyChanged : Bool
  hwTimestamp : Int
  values : List Int
deriving DecidableEq

/-- The nine `EventEntry` variants (`EventEntry::Type`); the stored `type`
tag of the C++ base class is represented by the payload's constructor. -/
inductive EventPayload where
  | configurationChanged
  | deviceReset (deviceId : Int)
  | focus (connectionToken : Nat) (hasFocus : Bool) (reason : String)
  | pointerCaptureChanged (pointerCaptureRequest : Nat)
  | drag (connectionToken : Nat) (isExiting : Bool) (x y : Int)
  | key (k : KeyFields)
  | motion (m : MotionFields)
  | sensor (s : SensorFields)
  | touchMode (inTouchMode : Bool)
deriving DecidableEq

/-- The `EventEntry` base: common fields shared by all variants.  The event
id is modelled as the 32-bit pattern of the C++ `int32_t id`. -/
structure EventEntry where
  id : Nat
  eventTime : Int
  policyFlags : Nat
  injectionState : Option InjectionState
  dispatchInProgress : Bool
  payload : EventPayload
deriving DecidableEq

/-- `EventEntry::isInjected`, embedded from the header:
`return injectionState != nullptr;`. -/
def EventEntry.isInjected (e : EventEntry) : Bool :=
  e.injectionState.isSome

/-- `EventEntry::isSynthesized`, embedded from the header:
`return isInjected() || IdGenerator::getSource(id) != IdGenerator::Source::INPUT_READER;`. -/
def EventEntry.isSynthesized (e : EventEntry) : Bool :=
  e.isInjected || decide (getSource e.id ≠ Source.INPUT_READER)

/-- Modelled from the spec: the out-of-line `EventEntry` constructor body is
not in the header.  The header documents `dispatchInProgress` as
"initially false, set to true while dispatching", and per the spec the
injection state is "present iff injected". -/
def mkEventEntry (id : Nat) (eventTime : Int) (policyFlags : Nat)
    (injectionState : Option InjectionState) (payload : EventPayload) : EventEntry :=
  { id := id, eventTime := eventTime, policyFlags := policyFlags,
    injectionState := injectionState, dispatchInProgress := false,
    payload := payload }

/-! ## Fail-fast construction of Motion and Sensor entries (spec §4.1, §7) -/

/-- `MAX_POINTERS`, the fixed capacity of the pointer arrays (defined in
`input/Input.h`, outside the header under verification). -/
def MAX_POINTERS : Nat := 16

/-- Modelled from the spec: a fixed capacity for sensor sample values;
the spec treats an oversized sample list like an oversized pointer list
(§4.1, §7: "oversized pointer/sample list ... fatal"). -/
def MAX_SENSOR_VALUES : Nat := 16

/-- Modelled from the spec: the `MotionEntry` constructor body is not in
the header.  "Constructing a Motion ... entry with more pointer ...
elements than the fixed capacity is a programming error (fails fast, not
recoverable)"; the fatal outcome is `none`, and a successful construction
stores the pointer lists unchanged (never silently truncated). -/
def mkMotionEntry (id : Nat) (eventTime : Int) (policyFlags : Nat)
    (injectionState : Option InjectionState) (m : MotionFields) : Option EventEntry :=
  if m.pointerProperties.length ≤ MAX_POINTERS ∧ m.pointerCoords.length ≤ MAX_POINTERS then
    some (mkEventEntry id eventTime policyFlags injectionState (EventPayload.motion m))
  else
    none

/-- Modelled from the spec: the `SensorEntry` constructor body is not in
the header; an oversized sample list is fatal to the construction call
(spec §4.1, §7), and a successful construction stores the sample list
unchanged. -/
def mkSensorEntry (id : Nat) (eventTime : Int) (policyFlags : Nat)
    (injectionState : Option InjectionState) (s : SensorFields) : Option EventEntry :=
  if s.values.length ≤ MAX_SENSOR_VALUES then
    some (mkEventEntry id eventTime policyFlags injectionState (EventPayload.sensor s))
  else
    none

/-! ## Transforms and dispatch targets -/

/-- An affine 2-D transform (`ui::Transform`), with integer scalars. -/
structure Transform where
  dsdx : Int
  dtdx : Int
  tx : Int
  dtdy : Int
  dsdy : Int
  ty : Int
deriving DecidableEq

/-- Application of a transform to a point. -/
def Transform.applyTo (t : Transform) (x y : Int) : Int × Int :=
  (t.dsdx * x + t.dtdx * y + t.tx, t.dtdy * x + t.dsdy * y + t.ty)

/-- Modelled from the spec: `InputTarget.h` is not part of the header under
verification; a destination descriptor carries "a coordinate transform,
scale factor, and flag bits" (spec §4.2, §6). -/
structure InputTarget where
  targetFlags : Nat
  transform : Transform
  rawTransform : Transform
  globalScaleFactor : Int
deriving DecidableEq

/-- Modelled from the spec: the constant `InputTarget::FLAG_FOREGROUND`
lives in `InputTarget.h`; FOREGROUND is a single bit of `targetFlags`. -/
def FLAG_FOREGROUND : Nat := 1 <<< 0

/-- Modelled from the spec: the constant `InputTarget::FLAG_SPLIT` lives in
`InputTarget.h`; SPLIT is a single bit of `targetFlags`, distinct from
FOREGROUND. -/
def FLAG_SPLIT : Nat := 1 <<< 2

/-! ## DispatchEntry -/

/-- `DispatchEntry`: the per-(event, destination) delivery record.  The two
`nsecs_t` fields `deliveryTime`/`timeoutTime`, documented as "only
populated when the entry is sent to the app, and ... undefined before
that", are modelled as options (`none` = unset). -/
structure DispatchEntry where
  seq : Nat
  eventEntry : EventEntry
  targetFlags : Nat
  transform : Transform
  rawTransform : Transform
  globalScaleFactor : Int
  deliveryTime : Option Int
  timeoutTime : Option Int
  resolvedEventId : Nat
  resolvedAction : Int
  resolvedFlags : Int
deriving DecidableEq

/-- `DispatchEntry::hasForegroundTarget`, embedded from the header:
`return targetFlags & InputTarget::FLAG_FOREGROUND;`. -/
def DispatchEntry.hasForegroundTarget (d : DispatchEntry) : Bool :=
  d.targetFlags &&& FLAG_FOREGROUND != 0

/-- `DispatchEntry::isSplit`, embedded from the header:
`return targetFlags & InputTarget::FLAG_SPLIT;`. -/
def DispatchEntry.isSplit (d : DispatchEntry) : Bool :=
  d.targetFlags &&& FLAG_SPLIT != 0

/-- The `DispatchEntry` constructor's arguments. -/
structure DispatchCreateArgs where
  eventEntry : EventEntry
  targetFlags : Nat
  transform : Transform
  rawTransform : Transform
  globalScaleFactor : Int
deriving DecidableEq

/-- Modelled from the spec: the `DispatchEntry` constructor body is not in
the header.  It allocates `seq` from the sequence allocator (threaded here
as the counter value `c`), leaves `deliveryTime`/`timeoutTime` unset, and
the resolved fields are "set to the resolved ID, action and flags when the
event is enqueued" (initialised from the event until then). -/
def mkDispatchEntry (c : Nat) (a : DispatchCreateArgs) : DispatchEntry × Nat :=
  let p := nextSeq c
  ({ seq := p.1, eventEntry := a.eventEntry, targetFlags := a.targetFlags,
     transform := a.transform, rawTransform := a.rawTransform,
     globalScaleFactor := a.globalScaleFactor,
     deliveryTime := none, timeoutTime := none,
     resolvedEventId := a.eventEntry.id, resolvedAction := 0,
     resolvedFlags := 0 }, p.2)

/-- Creation of a sequence of DispatchEntries during one run, threading the
process-wide sequence counter through the successive constructor calls. -/
def createDispatchEntries : Nat → List DispatchCreateArgs → List DispatchEntry
  | _, [] => []
  | c, a :: as =>
    let p := mkDispatchEntry c a
    p.1 :: createDispatchEntries p.2 as

theorem createDispatchEntries_map_seq (c : Nat) (as : List DispatchCreateArgs) :
    (createDispatchEntries c as).map DispatchEntry.seq = runSeqs c as.length := by
  induction as generalizing c with
  | nil => rfl
  | cons a as ih => simp [createDispatchEntries, runSeqs, mkDispatchEntry, ih]

/-! ## DispatchEntry lifecycle (spec §4.3) -/

/-- Modelled from the spec: the send step of the delivery state machine;
"`deliveryTime` and `timeoutTime` are both unset or both set (set
atomically at send time)", with
`timeoutTime = deliveryTime + destination's configured response timeout`. -/
def sendToApp (d : DispatchEntry) (currentTime timeoutDuration : Int) : DispatchEntry :=
  { d with deliveryTime := some currentTime,
           timeoutTime := some (currentTime + timeoutDuration) }

/-- Modelled from the spec: the enqueue-time write of the resolved event
fields ("set to the resolved ID, action and flags when the event is
enqueued"). -/
def resolveFields (d : DispatchEntry) (rid : Nat) (raction rflags : Int) : DispatchEntry :=
  { d with resolvedEventId := rid, resolvedAction := raction,
           resolvedFlags := rflags }

/-- The DispatchEntry states reachable in its lifecycle: created at fan-out
time, possibly re-resolved, then sent to the app. -/
inductive DispatchEntryReachable : DispatchEntry → Prop
  | created (c : Nat) (a : DispatchCreateArgs) :
      DispatchEntryReachable (mkDispatchEntry c a).1
  | resolved {d : DispatchEntry} (rid : Nat) (raction rflags : Int) :
      DispatchEntryReachable d → DispatchEntryReachable (resolveFields d rid raction rflags)
  | sent {d : DispatchEntry} (t dur : Int) :
      DispatchEntryReachable d → DispatchEntryReachable (sendToApp d t dur)

/-! ## EventEntry dispatch lifecycle (header line 53) -/

/-- Modelled from the spec: the dispatcher marks an entry while it is being
dispatched (`dispatchInProgress` is "set to true while dispatching"). -/
def startDispatch (e : EventEntry) : EventEntry :=
  { e with dispatchInProgress := true }

/-- Modelled from the spec: the dispatcher clears the mark once the entry is
no longer being dispatched. -/
def finishDispatch (e : EventEntry) : EventEntry :=
  { e with dispatchInProgress := false }

/-- The dispatch-lifecycle steps that touch `dispatchInProgress`: the
dispatcher marks the entry when it begins dispatching it and clears the
mark when it is done. -/
inductive DispatchStep where
  | start
  | finish
deriving DecidableEq

/-- The entry after a history of dispatch-lifecycle steps. -/
def runEventSteps (e : EventEntry) : List DispatchStep → EventEntry
  | [] => e
  | st :: sts =>
    runEventSteps
      (match st with
       | DispatchStep.start => startDispatch e
       | DispatchStep.finish => finishDispatch e) sts

theorem runEventSteps_dispatchInProgress (steps : List DispatchStep) (e : EventEntry) :
    (runEventSteps e steps).dispatchInProgress =
      (match steps.getLast? with
       | none => e.dispatchInProgress
       | some DispatchStep.start => true
       | some DispatchStep.finish => false) := by
  induction steps generalizing e with
  | nil => rfl
  | cons st sts ih =>
    cases sts with
    | nil => cases st <;> simp [runEventSteps, startDispatch, finishDispatch]
    | cons st2 rest =>
      show (runEventSteps _ (st2 :: rest)).dispatchInProgress = _
      rw [ih, List.getLast?_cons_cons]
      cases hg : (st2 :: rest).getLast? with
      | none => exact absurd (List.getLast?_eq_none_iff.mp hg) (by simp)
      | some s => cases s <;> rfl

/-! ## Concurrent sequence allocation (spec §4.5) -/

/-- Modelled from the spec: each allocation is one atomic read-modify-write
of the shared counter ("advanced atomically on every DispatchEntry
creation"), so a concurrent execution is determined by its schedule: the
list of thread ids in the order their atomic steps hit the counter.  Each
element of the result pairs the allocating thread with the seq it got. -/
def runAllocSched : Nat → List Nat → List (Nat × Nat)
  | _, [] => []
  | c, t :: ts =>
    let p := nextSeq c
    (t, p.1) :: runAllocSched p.2 ts

theorem runAllocSched_map_snd (c : Nat) (ts : List Nat) :
    (runAllocSched c ts).map Prod.snd = runSeqs c ts.length := by
  induction ts generalizing c with
  | nil => rfl
  | cons t ts ih => simp [runAllocSched, runSeqs, ih]

/-! ## Injection completion tracking (spec §4.4) -/

/-- Terminal resolutions of a DispatchEntry (spec §4.3). -/
inductive TerminalOutcome where
  | ACKED
  | TIMED_OUT
  | ABORTED
deriving DecidableEq

/-- Modelled from the spec: the injection completion tracker for one
injected EventEntry; "pending-count equal to the number of DispatchEntries
fanned out from it", plus the data for the aggregate result and the number
of times the injector has been notified. -/
structure InjectionTracker where
  pendingDispatches : Nat
  anySucceeded : Bool
  notifyCount : Nat
deriving DecidableEq

/-- Modelled from the spec: "Each DispatchEntry's terminal resolution
(ACKED/TIMED_OUT/ABORTED) decrements the pending count.  When the count
reaches zero, the aggregate result is computed ... The injector is
notified exactly once with the aggregate result." -/
def InjectionTracker.resolveOne (s : InjectionTracker) (o : TerminalOutcome) : InjectionTracker :=
  let succ := s.anySucceeded || (match o with | TerminalOutcome.ACKED => true | _ => false)
  match s.pendingDispatches with
  | 0 => s
  | 1 => { pendingDispatches := 0, anySucceeded := succ,
           notifyCount := s.notifyCount + 1 }
  | n + 2 => { pendingDispatches := n + 1, anySucceeded := succ,
               notifyCount := s.notifyCount }

/-- Folding the terminal resolutions of the fanned-out DispatchEntries, in
the order they happen to resolve, through the tracker. -/
def runInjection : InjectionTracker → List TerminalOutcome → InjectionTracker
  | s, [] => s
  | s, o :: os => runInjection (s.resolveOne o) os

/-- The tracker of a freshly injected EventEntry fanned out to `n`
destinations. -/
def initTracker (n : Nat) : InjectionTracker :=
  { pendingDispatches := n, anySucceeded := false, notifyCount := 0 }

/-! ## Verified events (spec §4.6) -/

/-- The signable projection of a key entry (`VerifiedKeyEvent`). -/
structure VerifiedKeyEvent where
  deviceId : Int
  eventTimeNanos : Int
  source : Nat
  displayId : Int
  action : Int
  downTimeNanos : Int
  flags : Int
  keyCode : Int
  scanCode : Int
  metaState : Int
  repeatCount : Int
deriving DecidableEq

/-- The signable projection of a motion entry (`VerifiedMotionEvent`);
`rawX`/`rawY` summarise the pointers in the raw coordinate space. -/
structure VerifiedMotionEvent where
  deviceId : Int
  eventTimeNanos : Int
  source : Nat
  displayId : Int
  rawX : Int
  rawY : Int
  action : Int
  downTimeNanos : Int
  flags : Int
  metaState : Int
  buttonState : Int
deriving DecidableEq

/-- Modelled from the spec: the body of `verifiedKeyEventFromKeyEntry` is
not in the header; §4.6 describes a "minimal, canonical signable
projection of a Key ... EventEntry (device id, source, action, event/down
time, flags ...)".  Returns `none` on a non-key entry. -/
def verifiedKeyEventFromKeyEntry (e : EventEntry) : Option VerifiedKeyEvent :=
  match e.payload with
  | EventPayload.key k =>
    some { deviceId := k.deviceId, eventTimeNanos := e.eventTime,
           source := k.source, displayId := k.displayId, action := k.action,
           downTimeNanos := k.downTime, flags := k.flags, keyCode := k.keyCode,
           scanCode := k.scanCode, metaState := k.metaState,
           repeatCount := k.repeatCount }
  | _ => none

/-- Modelled from the spec: the body of `verifiedMotionEventFromMotionEntry`
is not in the header; §4.6 — the pointer summary is computed "under the
destination-specific `rawTransform` ... (the raw, untransformed coordinate
space is what gets signed, not the per-destination transformed space)".
The first pointer's coordinates, mapped through `rawTransform`, stand for
the aggregate pointer summary.  Returns `none` on a non-motion entry. -/
def verifiedMotionEventFromMotionEntry (e : EventEntry) (rawTransform : Transform) :
    Option VerifiedMotionEvent :=
  match e.payload with
  | EventPayload.motion m =>
    let p0 := m.pointerCoords.headD { x := 0, y := 0 }
    let raw := rawTransform.applyTo p0.x p0.y
    some { deviceId := m.deviceId, eventTimeNanos := e.eventTime,
           source := m.source, displayId := m.displayId, rawX := raw.1,
           rawY := raw.2, action := m.action, downTimeNanos := m.downTime,
           flags := m.flags, metaState := m.metaState,
           buttonState := m.buttonState }
  | _ => none

/-- The verified motion event attached to the delivery for one destination:
built from that destination's `rawTransform` (not its `transform`). -/
def verifiedMotionForTarget (e : EventEntry) (t : InputTarget) : Option VerifiedMotionEvent :=
  verifiedMotionEventFromMotionEntry e t.rawTransform

/-! ## Helper lemmas -/

theorem resolveOne_of_ge_two (s : InjectionTracker) (o : TerminalOutcome)
    (h : 2 ≤ s.pendingDispatches) :
    (s.resolveOne o).pendingDispatches = s.pendingDispatches - 1 ∧
    (s.resolveOne o).notifyCount = s.notifyCount := by
  obtain ⟨pend, succ, nc⟩ := s
  simp only at h
  match pend, h with
  | n + 2, _ => simp [InjectionTracker.resolveOne]

theorem runInjection_no_notify (os : List TerminalOutcome) (s : InjectionTracker)
    (h : os.length < s.pendingDispatches) :
    (runInjection s os).notifyCount = s.notifyCount ∧
    (runInjection s os).pendingDispatches = s.pendingDispatches - os.length := by
  induction os generalizing s with
  | nil => simp [runInjection]
  | cons o os ih =>
    simp only [List.length_cons] at h
    have hres := resolveOne_of_ge_two s o (by omega)
    have hlt : os.length < (s.resolveOne o).pendingDispatches := by omega
    have hrec := ih (s.resolveOne o) hlt
    refine ⟨hrec.1.trans hres.2, ?_⟩
    show (runInjection (s.resolveOne o) os).pendingDispatches = _
    rw [hrec.2, hres.1, List.length_cons]
    omega

theorem runInjection_notify_once (os : List TerminalOutcome) (s : InjectionTracker)
    (hlen : s.pendingDispatches = os.length) (hne : os ≠ []) :
    (runInjection s os).notifyCount = s.notifyCount + 1 := by
  induction os generalizing s with
  | nil => cases hne rfl
  | cons o os ih =>
    cases os with
    | nil =>
      obtain ⟨pend, succ, nc⟩ := s
      simp only [List.length_cons, List.length_nil] at hlen
      subst hlen
      simp [runInjection, InjectionTracker.resolveOne]
    | cons o2 rest =>
      have hres := resolveOne_of_ge_two s o (by simp [hlen])
      have hlen2 : (s.resolveOne o).pendingDispatches = (o2 :: rest).length := by
        simp only [List.length_cons] at hlen ⊢
        omega
      have hrec := ih (s.resolveOne o) hlen2 (by simp)
      rw [show runInjection s (o :: o2 :: rest) = runInjection (s.resolveOne o) (o2 :: rest)
          from rfl]
      omega

/-! ## Sample values -/

def sampleTransform : Transform :=
  { dsdx := 1, dtdx := 0, tx := 0, dtdy := 0, dsdy := 1, ty := 0 }

def sampleTransform2 : Transform :=
  { dsdx := 2, dtdx := 0, tx := 5, dtdy := 0, dsdy := 2, ty := 7 }

def sampleTransform3 : Transform :=
  { dsdx := 0, dtdx := 1, tx := 9, dtdy := 1, dsdy := 0, ty := 4 }

def sampleInjectionState : InjectionState :=
  { injectorPid := 1000, injectorUid := 2000, pendingDispatches := 1,
    injectionResult := InjectionResult.PENDING }

def sampleEntry : EventEntry :=
  mkEventEntry 7 100 0 none EventPayload.configurationChanged

def sampleArgs : DispatchCreateArgs :=
  { eventEntry := sampleEntry, targetFlags := 0, transform := sampleTransform,
    rawTransform := sampleTransform, globalScaleFactor := 1 }

def sampleKeyFields : KeyFields :=
  { deviceId := 2, source := 257, displayId := 0, action := 0, flags := 0,
    keyCode := 29, scanCode := 30, metaState := 0, repeatCount := 0,
    downTime := 90, syntheticRepeat := false,
    interceptKeyResult := InterceptKeyResult.UNKNOWN, interceptKeyWakeupTime := 0 }

def sampleMotionFields : MotionFields :=
  { deviceId := 3, source := 4098, displayId := 0, action := 2, actionButton := 0,
    flags := 0, metaState := 0, buttonState := 0,
    classification := MotionClassification.NONE, edgeFlags := 0, xPrecision := 1,
    yPrecision := 1, xCursorPosition := 0, yCursorPosition := 0, downTime := 80,
    pointerProperties := [{ pointerId := 0, toolType := 1 }],
    pointerCoords := [{ x := 10, y := 20 }] }

def sampleSensorFields : SensorFields :=
  { deviceId := 4, source := 33554432, sensorType := 1, accuracy := 2,
    accuracyChanged := false, hwTimestamp := 50, values := [3, 1, 4] }

def oversizedMotionFields : MotionFields :=
  { sampleMotionFields with
    pointerProperties := List.replicate 17 { pointerId := 0, toolType := 1 },
    pointerCoords := List.replicate 17 { x := 0, y := 0 } }

def oversizedSensorFields : SensorFields :=
  { sampleSensorFields with values := List.replicate 17 0 }

def keyEntryA : EventEntry :=
  mkEventEntry 7 100 0 none (EventPayload.key sampleKeyFields)

def keyEntryB : EventEntry :=
  { mkEventEntry 9 100 4 (some sampleInjectionState) (EventPayload.key sampleKeyFields) with
    dispatchInProgress := true }

def motionEntryA : EventEntry :=
  mkEventEntry 11 200 0 none (EventPayload.motion sampleMotionFields)

def motionEntryB : EventEntry :=
  mkEventEntry 12 200 8 none (EventPayload.motion sampleMotionFields)

def targetA : InputTarget :=
  { targetFlags := FLAG_FOREGROUND, transform := sampleTransform,
    rawTransform := sampleTransform2, globalScaleFactor := 1 }

def targetB : InputTarget :=
  { targetFlags := FLAG_SPLIT, transform := sampleTransform3,
    rawTransform := sampleTransform2, globalScaleFactor := 3 }

def dispatchA : DispatchEntry :=
  { seq := 1, eventEntry := sampleEntry, targetFlags := 5,
    transform := sampleTransform, rawTransform := sampleTransform,
    globalScaleFactor := 1, deliveryTime := none, timeoutTime := none,
    resolvedEventId := 7, resolvedAction := 0, resolvedFlags := 0 }

def dispatchB : DispatchEntry :=
  { seq := 2, eventEntry := keyEntryA, targetFlags := 5,
    transform := sampleTransform2, rawTransform := sampleTransform3,
    globalScaleFactor := 2, deliveryTime := some 5, timeoutTime := some 8,
    resolvedEventId := 9, resolvedAction := 1, resolvedFlags := 1 }

theorem and_two_pow_ne_zero (n i : Nat) : (n &&& 2 ^ i != 0) = n.testBit i := by
  rw [Nat.and_two_pow]
  cases h : n.testBit i with
  | false => simp
  | true => simp [Nat.pos_iff_ne_zero.mp (Nat.two_pow_pos i)]

/-! ## Claims -/

/-- C1: every DispatchEntry created during a run has a non-zero `seq`,
assigned once at creation by the sequence allocator (the `seq` field is
written only by the constructor), and the `seq` values issued during the
run are strictly increasing, hence pairwise distinct and never reused. -/
theorem dispatchEntry_seq_unique (as : List DispatchCreateArgs)
    (h : as.length ≤ UINT32_MOD - 1) :
    (∀ d ∈ createDispatchEntries 0 as, d.seq ≠ 0) ∧
    ((createDispatchEntries 0 as).map DispatchEntry.seq).Pairwise (· < ·) ∧
    ((createDispatchEntries 0 as).map DispatchEntry.seq).Nodup := by
  have hmod : UINT32_MOD = 4294967296 := by norm_num [UINT32_MOD]
  have h0 : 0 + as.length < UINT32_MOD := by omega
  have hseq := createDispatchEntries_map_seq 0 as
  rw [runSeqs_eq_range' h0] at hseq
  refine ⟨?_, ?_, ?_⟩
  · intro d hd
    have hm : d.seq ∈ (createDispatchEntries 0 as).map DispatchEntry.seq :=
      List.mem_map_of_mem _ hd
    rw [hseq] at hm
    have := (List.mem_range'_1.mp hm).1
    omega
  · rw [hseq]
    exact List.pairwise_lt_range' _ _
  · rw [hseq]
    exact List.nodup_range' _ _

theorem dispatchEntry_seq_unique_witness :
    (∀ d ∈ createDispatchEntries 0 [sampleArgs, sampleArgs, sampleArgs], d.seq ≠ 0) ∧
    ((createDispatchEntries 0 [sampleArgs, sampleArgs, sampleArgs]).map
      DispatchEntry.seq).Pairwise (· < ·) ∧
    ((createDispatchEntries 0 [sampleArgs, sampleArgs, sampleArgs]).map
      DispatchEntry.seq).Nodup :=
  dispatchEntry_seq_unique [sampleArgs, sampleArgs, sampleArgs] (by decide)

/-- C2: for every EventEntry (of any variant), `isInjected()` returns true
iff the entry's injection state is non-null, i.e. iff it was constructed
with an InjectionState present. -/
theorem isInjected_iff_injectionState (e : EventEntry) :
    (e.isInjected = true ↔ e.injectionState ≠ none) ∧
    ∀ (id : Nat) (t : Int) (pf : Nat) (inj : Option InjectionState) (p : EventPayload),
      (mkEventEntry id t pf inj p).isInjected = true ↔ inj ≠ none := by
  refine ⟨?_, fun id t pf inj p => ?_⟩ <;>
    simp [EventEntry.isInjected, mkEventEntry, Option.isSome_iff_ne_none]

theorem isInjected_iff_injectionState_witness :
    (mkEventEntry 7 100 0 (some sampleInjectionState)
      EventPayload.configurationChanged).isInjected = true :=
  ((isInjected_iff_injectionState sampleEntry).2 7 100 0 (some sampleInjectionState)
    EventPayload.configurationChanged).mpr (by simp)

/-- C3: for every EventEntry, `isSynthesized()` is true iff the entry is
injected or its id carries a source tag other than the hardware input
reader's; in particular it is true for all injected entries. -/
theorem isSynthesized_injected_or_nonreader (e : EventEntry) :
    e.isSynthesized = true ↔
      (e.isInjected = true ∨ getSource e.id ≠ Source.INPUT_READER) := by
  simp [EventEntry.isSynthesized]

theorem isSynthesized_injected_or_nonreader_witness :
    (mkEventEntry 7 100 0 (some sampleInjectionState)
      EventPayload.configurationChanged).isSynthesized = true :=
  (isSynthesized_injected_or_nonreader _).mpr (Or.inl rfl)

/-- C4: at every reachable point of a DispatchEntry's lifecycle,
`deliveryTime` and `timeoutTime` are both unset or both set: they start
unset at creation and are populated together by the send step. -/
theorem deliveryTime_timeoutTime_both_or_neither {d : DispatchEntry}
    (h : DispatchEntryReachable d) :
    d.deliveryTime.isSome = true ↔ d.timeoutTime.isSome = true := by
  induction h with
  | created c a => simp [mkDispatchEntry]
  | resolved rid raction rflags h ih => simpa [resolveFields] using ih
  | sent t dur h ih => simp [sendToApp]

theorem deliveryTime_timeoutTime_both_or_neither_witness :
    ((sendToApp (mkDispatchEntry 0 sampleArgs).1 5 3).deliveryTime.isSome = true ↔
      (sendToApp (mkDispatchEntry 0 sampleArgs).1 5 3).timeoutTime.isSome = true) :=
  deliveryTime_timeoutTime_both_or_neither
    (DispatchEntryReachable.sent 5 3 (DispatchEntryReachable.created 0 sampleArgs))

/-- C5: constructing a MotionEntry with more pointer elements than the
fixed capacity, or a SensorEntry with more sample values than the fixed
capacity, fails that single construction call (yields `none`); a
successful construction stores the full input lists, never a truncation. -/
theorem oversized_construction_fails_fast (id : Nat) (t : Int) (pf : Nat)
    (inj : Option InjectionState) (m : MotionFields) (s : SensorFields) :
    (mkMotionEntry id t pf inj m = none ↔
      MAX_POINTERS < m.pointerProperties.length ∨
      MAX_POINTERS < m.pointerCoords.length) ∧
    (∀ e, mkMotionEntry id t pf inj m = some e → e.payload = EventPayload.motion m) ∧
    (mkSensorEntry id t pf inj s = none ↔ MAX_SENSOR_VALUES < s.values.length) ∧
    (∀ e, mkSensorEntry id t pf inj s = some e → e.payload = EventPayload.sensor s) := by
  refine ⟨?_, ?_, ?_, ?_⟩
  · by_cases h : m.pointerProperties.length ≤ MAX_POINTERS ∧
      m.pointerCoords.length ≤ MAX_POINTERS
    · simp only [mkMotionEntry, if_pos h]
      simp
      omega
    · simp only [mkMotionEntry, if_neg h]
      simp
      omega
  · intro e he
    by_cases h : m.pointerProperties.length ≤ MAX_POINTERS ∧
      m.pointerCoords.length ≤ MAX_POINTERS
    · simp only [mkMotionEntry, if_pos h, Option.some_inj] at he
      rw [← he]
      rfl
    · simp [mkMotionEntry, if_neg h] at he
  · by_cases h : s.values.length ≤ MAX_SENSOR_VALUES
    · simp only [mkSensorEntry, if_pos h]
      simp
      omega
    · simp only [mkSensorEntry, if_neg h]
      simp
      omega
  · intro e he
    by_cases h : s.values.length ≤ MAX_SENSOR_VALUES
    · simp only [mkSensorEntry, if_pos h, Option.some_inj] at he
      rw [← he]
      rfl
    · simp [mkSensorEntry, if_neg h] at he

theorem oversized_construction_fails_fast_witness :
    mkMotionEntry 7 100 0 none oversizedMotionFields = none ∧
    mkSensorEntry 7 100 0 none oversizedSensorFields = none :=
  ⟨(oversized_construction_fails_fast 7 100 0 none oversizedMotionFields
      oversizedSensorFields).1.mpr (Or.inl (by decide)),
   (oversized_construction_fails_fast 7 100 0 none oversizedMotionFields
      oversizedSensorFields).2.2.1.mpr (by decide)⟩

/-- C6: the verified-event builders are pure, side-effect-free and
deterministic: two entries with identical eventTime and payload yield
identical verified key events, and under destination targets with
identical `rawTransform` (but possibly different per-destination
`transform`, flags or scale) they yield identical verified motion events —
the motion projection is computed over the raw untransformed coordinate
space, via `rawTransform` only. -/
theorem verifiedEvents_pure_deterministic (e1 e2 : EventEntry) (t1 t2 : InputTarget)
    (het : e1.eventTime = e2.eventTime) (hp : e1.payload = e2.payload)
    (hraw : t1.rawTransform = t2.rawTransform) :
    verifiedKeyEventFromKeyEntry e1 = verifiedKeyEventFromKeyEntry e2 ∧
    verifiedMotionForTarget e1 t1 = verifiedMotionForTarget e2 t2 := by
  obtain ⟨i1, et1, pf1, in1, dp1, p1⟩ := e1
  obtain ⟨i2, et2, pf2, in2, dp2, p2⟩ := e2
  dsimp only at het hp
  subst het
  subst hp
  constructor
  · cases p1 <;> rfl
  · simp only [verifiedMotionForTarget, hraw]
    cases p1 <;> rfl

theorem verifiedEvents_pure_deterministic_witness :
    verifiedKeyEventFromKeyEntry keyEntryA = verifiedKeyEventFromKeyEntry keyEntryB ∧
    verifiedMotionForTarget motionEntryA targetA = verifiedMotionForTarget motionEntryB targetB :=
  ⟨(verifiedEvents_pure_deterministic keyEntryA keyEntryB targetA targetA
      rfl rfl rfl).1,
   (verifiedEvents_pure_deterministic motionEntryA motionEntryB targetA targetB
      rfl rfl rfl).2⟩

/-- C7: each sequence allocation is one atomic step on the shared counter,
so a concurrent execution from several dispatch threads is determined by
its schedule; under every schedule, no two allocations yield the same
`seq` and none yields 0. -/
theorem concurrent_seq_allocation_safe (sched : List Nat)
    (h : sched.length ≤ UINT32_MOD - 1) :
    ((runAllocSched 0 sched).map Prod.snd).Nodup ∧
    ∀ p ∈ runAllocSched 0 sched, p.2 ≠ 0 := by
  have hmod : UINT32_MOD = 4294967296 := by norm_num [UINT32_MOD]
  have h0 : 0 + sched.length < UINT32_MOD := by omega
  have hm := runAllocSched_map_snd 0 sched
  rw [runSeqs_eq_range' h0] at hm
  constructor
  · rw [hm]
    exact List.nodup_range' _ _
  · intro p hp
    have hmm : p.2 ∈ (runAllocSched 0 sched).map Prod.snd :=
      List.mem_map_of_mem _ hp
    rw [hm] at hmm
    have := (List.mem_range'_1.mp hmm).1
    omega

theorem concurrent_seq_allocation_safe_witness :
    ((runAllocSched 0 [0, 1, 0, 2]).map Prod.snd).Nodup ∧
    ∀ p ∈ runAllocSched 0 [0, 1, 0, 2], p.2 ≠ 0 :=
  concurrent_seq_allocation_safe [0, 1, 0, 2] (by decide)

/-- C8: for every injected EventEntry fanned out to a non-empty set of
destinations, the injector is notified with the aggregate result exactly
once: never before the last DispatchEntry reaches a terminal state, and
exactly once when it does — independent of the number of destinations and
of the order of their terminal outcomes. -/
theorem injector_notified_exactly_once (os : List TerminalOutcome) (hne : os ≠ []) :
    (runInjection (initTracker os.length) os).notifyCount = 1 ∧
    ∀ k, k < os.length →
      (runInjection (initTracker os.length) (os.take k)).notifyCount = 0 := by
  constructor
  · have := runInjection_notify_once os (initTracker os.length) rfl hne
    simpa [initTracker] using this
  · intro k hk
    have hlt : (os.take k).length < (initTracker os.length).pendingDispatches := by
      simp only [initTracker, List.length_take]
      omega
    have := (runInjection_no_notify (os.take k) (initTracker os.length) hlt).1
    simpa [initTracker] using this

theorem injector_notified_exactly_once_witness :
    (runInjection (initTracker 3)
      [TerminalOutcome.ACKED, TerminalOutcome.ABORTED, TerminalOutcome.TIMED_OUT]).notifyCount
      = 1 ∧
    (runInjection (initTracker 3)
      ([TerminalOutcome.ACKED, TerminalOutcome.ABORTED, TerminalOutcome.TIMED_OUT].take 2)).notifyCount
      = 0 :=
  ⟨(injector_notified_exactly_once
      [TerminalOutcome.ACKED, TerminalOutcome.ABORTED, TerminalOutcome.TIMED_OUT]
      (by decide)).1,
   (injector_notified_exactly_once
      [TerminalOutcome.ACKED, TerminalOutcome.ABORTED, TerminalOutcome.TIMED_OUT]
      (by decide)).2 2 (by decide)⟩

/-- C9: `hasForegroundTarget()` and `isSplit()` are pure bit tests on
`targetFlags`: the former is true exactly when the FOREGROUND bit (bit 0)
is set, the latter exactly when the SPLIT bit (bit 2) is set, and no state
outside `targetFlags` is consulted — two entries with equal `targetFlags`
agree on both, whatever their other fields. -/
theorem targetFlags_pure_bit_tests (d : DispatchEntry) :
    (d.hasForegroundTarget = d.targetFlags.testBit 0 ∧
     d.isSplit = d.targetFlags.testBit 2) ∧
    ∀ d' : DispatchEntry, d.targetFlags = d'.targetFlags →
      d.hasForegroundTarget = d'.hasForegroundTarget ∧ d.isSplit = d'.isSplit := by
  refine ⟨⟨?_, ?_⟩, ?_⟩
  · have h1 : FLAG_FOREGROUND = 2 ^ 0 := by decide
    rw [DispatchEntry.hasForegroundTarget, h1, and_two_pow_ne_zero]
  · have h2 : FLAG_SPLIT = 2 ^ 2 := by decide
    rw [DispatchEntry.isSplit, h2, and_two_pow_ne_zero]
  · intro d' h
    constructor <;>
      simp [DispatchEntry.hasForegroundTarget, DispatchEntry.isSplit, h]

theorem targetFlags_pure_bit_tests_witness :
    (dispatchA.hasForegroundTarget = dispatchA.targetFlags.testBit 0 ∧
     dispatchA.isSplit = dispatchA.targetFlags.testBit 2) ∧
    (dispatchA.hasForegroundTarget = dispatchB.hasForegroundTarget ∧
     dispatchA.isSplit = dispatchB.isSplit) :=
  ⟨(targetFlags_pure_bit_tests dispatchA).1,
   (targetFlags_pure_bit_tests dispatchA).2 dispatchB rfl⟩

/-- C10: every freshly constructed EventEntry, of any variant, has
`dispatchInProgress = false`; after any history of dispatch-lifecycle
steps it is true exactly when the most recent step started a dispatch —
i.e. it becomes true only while the entry is being dispatched. -/
theorem dispatchInProgress_initially_false (id : Nat) (t : Int) (pf : Nat)
    (inj : Option InjectionState) (p : EventPayload) (steps : List DispatchStep) :
    (mkEventEntry id t pf inj p).dispatchInProgress = false ∧
    ((runEventSteps (mkEventEntry id t pf inj p) steps).dispatchInProgress = true ↔
      steps.getLast? = some DispatchStep.start) := by
  refine ⟨rfl, ?_⟩
  rw [runEventSteps_dispatchInProgress]
  cases hg : steps.getLast? with
  | none => simp [mkEventEntry]
  | some s => cases s <;> simp

theorem dispatchInProgress_initially_false_witness :
    (mkEventEntry 7 100 0 none EventPayload.configurationChanged).dispatchInProgress = false ∧
    (runEventSteps (mkEventEntry 7 100 0 none EventPayload.configurationChanged)
      [DispatchStep.start]).dispatchInProgress = true :=
  ⟨(dispatchInProgress_initially_false 7 100 0 none EventPayload.configurationChanged
      [DispatchStep.start]).1,
   (dispatchInProgress_initially_false 7 100 0 none EventPayload.configurationChanged
      [DispatchStep.start]).2.mpr rfl⟩

end InputDispatcher
